import Mathlib

/-!
Verification development for the span/event lifecycle core of the
appoptics-apm-node tracing agent (`lib/span.js`).

The JavaScript source is shallowly embedded below.  Mutable objects are
threaded explicitly as values; the JavaScript object identity that a few
operations compare with `!==` is modelled by unique numeric ids (`eid` for
the `Event` wrappers, `sid` for `Span` objects) allocated from an explicit
counter threaded through the constructors.  Process-wide state (`ao.lastEvent`,
`ao.lastSpan`, the span statistics and the stream of reported events) is an
explicit `AoState` record.  Wall-clock durations (`Date.now()`) are
abstracted to `0`: no modelled property depends on elapsed time values.
-/

namespace AO

/-- JavaScript values, restricted to the shapes that flow through `lib/span.js`:
`undefined`, `null`, booleans, (integer) numbers, `NaN`, strings, `Error`
objects (carrying their message) and other (truthy) objects. -/
inductive JsValue where
  | undefined
  | nullv
  | boolv (b : Bool)
  | num (n : Int)
  | nan
  | str (s : String)
  | errObj (msg : String)
  | objLit
deriving DecidableEq, Repr

/-- JavaScript truthiness: `undefined`, `null`, `false`, `0`, `NaN` and `""`
are falsy, everything else (including every object) is truthy. -/
def truthy : JsValue → Bool
  | .undefined => false
  | .nullv => false
  | .boolv b => b
  | .num n => decide (n ≠ 0)
  | .nan => false
  | .str s => decide (s ≠ "")
  | .errObj _ => true
  | .objLit => true

/-- `typeof v === 'string'`. -/
def isString : JsValue → Bool
  | .str _ => true
  | _ => false

/-- JavaScript string coercion (`'' + v`), for the value shapes above. -/
def jsToString : JsValue → String
  | .undefined => "undefined"
  | .nullv => "null"
  | .boolv b => if b then "true" else "false"
  | .num n => toString n
  | .nan => "NaN"
  | .str s => s
  | .errObj m => "Error: " ++ m
  | .objLit => "[object Object]"

/-- JavaScript numeric coercion; `none` stands for `NaN`.  (Numeric string
parsing is not modelled: no value reaching an arithmetic operation in
`span.js` is a non-empty string.) -/
def jsToNumber? : JsValue → Option Int
  | .undefined => none
  | .nullv => some 0
  | .boolv b => some (if b then 1 else 0)
  | .num n => some n
  | .nan => none
  | .str s => if s = "" then some 0 else none
  | .errObj _ => none
  | .objLit => none

/-- JavaScript `v + 1` (as used by `span.count += 1`, span.js:158/163):
`undefined + 1` and `NaN + 1` are `NaN`. -/
def jsInc (v : JsValue) : JsValue :=
  match jsToNumber? v with
  | some n => .num (n + 1)
  | none => .nan

/-- `Span.toError` (span.js:625-634): a string becomes a new `Error` with that
message, an `Error` instance is returned unchanged, anything else yields
`undefined` (here `none`). -/
def toError : JsValue → Option JsValue
  | .str s => some (.errObj s)
  | .errObj m => some (.errObj m)
  | _ => none

/-- A JavaScript object used as a key/value annotation mapping, in property
insertion order. -/
abbrev KvMap := List (String × JsValue)

/-- JavaScript property assignment `m[k] = v`: overwrite in place if the key
exists, else append. -/
def kvAssign (m : KvMap) (k : String) (v : JsValue) : KvMap :=
  if m.any (fun p => p.1 = k) then m.map (fun p => if p.1 = k then (k, v) else p)
  else m ++ [(k, v)]

/-- Merge the properties of `data` into `m`, in order (as `Event.prototype.set` does for
each key of its argument). -/
def kvMerge (m : KvMap) (data : KvMap) : KvMap :=
  data.foldl (fun acc p => kvAssign acc p.1 p.2) m

/-- JavaScript property read `m[k]`, `undefined` when absent. -/
def kvGet (m : KvMap) (k : String) : JsValue :=
  ((m.find? (fun p => p.1 = k)).map Prod.snd).getD .undefined

/-- The keys of an annotation mapping. -/
def kvKeys (m : KvMap) : List String := m.map Prod.fst

/-- Modelled from the spec: the native `addon.Event` value underlying an
`Event` wrapper (the addon is not part of this repository).  Per spec §6,
it carries the causal task identifier shared by the whole trace, a unique
operation identifier, and the sample flag (`getSampleFlag()`). -/
structure AddonEvent where
  taskId : Nat
  opId : Nat
  sampleFlag : Bool
deriving DecidableEq, Repr

/-- Modelled from the spec: the `Event` wrapper class of `lib/event.js`, which
is not under `src/` (only its callers in `span.js` are).  Per spec §3/§4.1 an
event has a name, a type label (`entry`/`exit`/internal), the underlying
addon event (task id inherited from the causal predecessor, fresh op id),
an ordered edge list of predecessor operation ids, a key→value annotation
mapping whose reserved keys are `Layer` and `Label`, an optional error, and
an `ignore` flag consulted by `Span.prototype.exit` before extra edging.  `eid` is the
wrapper's JavaScript object identity. -/
structure Event where
  eid : Nat
  name : JsValue
  label : String
  event : AddonEvent
  edges : List Nat
  kv : KvMap
  error : Option JsValue
  ignore : Bool
deriving DecidableEq, Repr

/-- Modelled from the spec (§4.1 Construct): `new Event(name, label,
causalPredecessor, shouldEdge)` inherits the predecessor's task id and sample
flag, takes a fresh op id, edges back to the predecessor's op id exactly when
`shouldEdge` is truthy, and initializes the annotation mapping with the
reserved keys `Layer` (the name) and `Label` (the type).  `c` is the fresh-id
counter. -/
def Event.make (name : JsValue) (label : String) (pred : AddonEvent)
    (shouldEdge : Bool) (c : Nat) : Event × Nat :=
  (⟨c, name, label, ⟨pred.taskId, c, pred.sampleFlag⟩,
    if shouldEdge then [pred.opId] else [],
    [("Layer", name), ("Label", .str label)], none, false⟩, c + 1)

/-- Modelled from the spec (§4.1 Set): merge key/value pairs into the
annotation mapping without reporting; a missing (`undefined`) argument is a
no-op, as in `entry.set(data)` with no `data`. -/
def Event.set (e : Event) (data : Option KvMap) : Event :=
  match data with
  | none => e
  | some d => { e with kv := kvMerge e.kv d }

/-- A record handed to the Reporter Bridge: the snapshot of an event at the
moment it was reported. -/
structure Report where
  eid : Nat
  label : String
  kv : KvMap
  edges : List Nat
  error : Option JsValue
deriving DecidableEq, Repr

/-- The process-wide state of `span.js`: the Trace Context Store's current
event (`ao.lastEvent`) and span (`ao.lastSpan`, by object identity), the
span statistics object (span.js:9-16), and the ordered stream of reports
handed to the Reporter Bridge. -/
structure AoState where
  lastEvent : Option Event
  lastSpanId : Option Nat
  topSpansActive : Int
  topSpansMax : Int
  topSpansExited : Int
  otherSpansActive : Int
  reports : List Report
deriving DecidableEq, Repr

/-- Modelled from the spec (§4.1 Report, §3 Trace Context Store):
`event.sendReport(data)` merges `data` into the annotation mapping, hands the
event snapshot to the Reporter Bridge exactly once, and leaves the event as
the process-wide currently active event. -/
def Event.sendReport (e : Event) (data : Option KvMap) (st : AoState) :
    Event × AoState :=
  let e' := e.set data
  (e', { st with
    reports := st.reports ++ [⟨e'.eid, e'.label, e'.kv, e'.edges, e'.error⟩],
    lastEvent := some e' })

/-- The dynamic `customTxName` field of a top span: either a plain value
(possibly `undefined` when unset) or a function whose single invocation
either returns a value or throws. -/
inductive CustomTx where
  | value (v : JsValue)
  | func (r : Except JsValue JsValue)

/-- The `events` property of a span (span.js:45-49): the internal-event list
and the entry/exit pair. -/
structure SpanEvents where
  internal : List Event
  entry : Event
  exit : Event

/-- The own fields of a `Span` object (span.js:38-77 and the entry-span
fields added by `makeEntrySpan`), minus the `skeleton` slot.  `sid` is the
JavaScript object identity; `count` is the skeleton reuse counter, which the
constructor leaves `undefined`. -/
structure SpanData where
  sid : Nat
  topSpan : Bool
  doMetrics : Bool
  asyncF : Bool
  name : JsValue
  doSample : Bool
  ignoreErrorFn : Option (JsValue → Bool)
  events : SpanEvents
  isSkeleton : Bool
  count : JsValue
  defaultTxName : JsValue
  customTxName : CustomTx

/-- A `Span` object: its own fields plus the `skeleton` slot that
`makeEntrySpan` fills on unsampled top spans (a skeleton itself never has
one, hence the non-recursive split). -/
structure Span extends SpanData where
  skeleton : Option SpanData

/-- View a stored skeleton as a full span (its own `skeleton` slot is
`undefined`). -/
def SpanData.toSpan (d : SpanData) : Span := { d with skeleton := none }

/-- The `settings` argument of the `Span` constructor: the addon event to
create the events from, and the `edge` property — `none` models the property
being absent (in which case the constructor defaults it to `true`,
span.js:68). -/
structure Settings where
  traceTaskId : AddonEvent
  edge : Option JsValue := none

/-- The `Span` constructor (span.js:38-77).  A falsy `name` raises a
`TypeError` before any event is built (the id counter `c` is returned
unchanged: nothing was allocated).  Otherwise the sample flag is read from
`settings.traceTaskId`, the entry event edges back to the incoming causal id
unless `settings.edge` is present and falsy, the exit event always edges to
the entry event, and `data` is merged into the entry event's annotations. -/
def Span.construct (name : JsValue) (settings : Settings) (data : Option KvMap)
    (c : Nat) : Except JsValue Span × Nat :=
  if truthy name = false then
    (.error (.errObj ("TypeError: invalid span name " ++ jsToString name)), c)
  else
    let doSample := settings.traceTaskId.sampleFlag
    let edgeVal : JsValue := (settings.edge).getD (.boolv true)
    let (entry, c1) := Event.make name "entry" settings.traceTaskId (truthy edgeVal) c
    let (exitEv, c2) := Event.make name "exit" entry.event true c1
    let entry := entry.set data
    (.ok { sid := c2, topSpan := false, doMetrics := false, asyncF := false,
           name := name, doSample := doSample, ignoreErrorFn := none,
           events := ⟨[], entry, exitEv⟩, isSkeleton := false,
           count := .undefined, defaultTxName := .undefined,
           customTxName := .value .undefined, skeleton := none }, c2 + 1)

/-- The `settings` object handed to `Span.makeEntrySpan` by
`ao.getTraceSettings()`: the optional incoming addon event, the raw `edge`
value it forwards, and the precomputed sample/metrics decision plus
sample-source and sample-rate annotations. -/
structure EntrySettings where
  traceTaskId : Option AddonEvent
  edge : JsValue := .undefined
  doSample : Bool := false
  doMetrics : Bool := false
  source : JsValue := .undefined
  rate : JsValue := .undefined

/-- Modelled from the spec (§4.3): `ao.addon.Event.makeRandom(doSample)`
synthesizes a fresh random causal id tagged with the sample decision (the
addon is not part of this repository). -/
def Addon.makeRandom (doSample : Bool) (c : Nat) : AddonEvent × Nat :=
  (⟨c, c, doSample⟩, c + 1)

/-- `Span.makeEntrySpan` (span.js:97-132).  Resolves the causal id (the one
from `settings`, else a fresh random one tagged with `settings.doSample`),
constructs the span — note the object literal `{traceTaskId, edge:
settings.edge}` always carries the `edge` property, so the constructor's
present-check sees it —, eagerly builds the single `__skeleton__` span when
the span is not sampled, marks the span as top span, copies the metrics flag,
computes the default transaction name (`custom-<name>`, or `''` for a falsy
name), and adds the sample-source and sample-rate annotations to the entry
event. -/
def Span.makeEntrySpan (name : JsValue) (settings : EntrySettings)
    (kvpairs : Option KvMap) (c : Nat) : Except JsValue Span × Nat :=
  let (traceTaskId, c1) :=
    match settings.traceTaskId with
    | some t => (t, c)
    | none => Addon.makeRandom settings.doSample c
  match Span.construct name { traceTaskId := traceTaskId, edge := some settings.edge } kvpairs c1 with
  | (.error e, c2) => (.error e, c2)
  | (.ok span, c2) =>
    let (skel, c3) :=
      if span.doSample = false then
        match Span.construct (.str "__skeleton__") { traceTaskId := span.events.entry.event } none c2 with
        | (.ok sk, c3) => ((some { sk.toSpanData with isSkeleton := true } : Option SpanData), c3)
        | (.error _, c3) => (none, c3)
      else (none, c2)
    (.ok { span with
      skeleton := skel,
      topSpan := true,
      doMetrics := settings.doMetrics,
      defaultTxName := if truthy name then .str ("custom-" ++ jsToString name) else .str "",
      customTxName := .value .undefined,
      events := { span.events with
        entry := span.events.entry.set (some [("SampleSource", settings.source), ("SampleRate", settings.rate)]) } }, c3)

/-- `Span.prototype.descend` (span.js:147-173), with `ao.lastEvent` passed in as
`last`.  Unsampled traces reuse the skeleton: a top span returns its stored
skeleton with the reuse counter incremented (a JavaScript `+= 1`, so an
uninitialized counter becomes `NaN`); a non-top unsampled span is the
skeleton and returns itself, incremented.  A sampled span constructs a fresh
child whose causal predecessor is `last.event` — read unconditionally, so a
missing last event raises a `TypeError`.  The result pairs the (possibly
updated) receiver with the returned span; for the unsampled paths both are
the same object. -/
def Span.descend (self : Span) (last : Option Event) (name : JsValue)
    (data : Option KvMap) (c : Nat) : Except JsValue (Span × Span) × Nat :=
  if self.doSample = false then
    if self.topSpan then
      match self.skeleton with
      | none =>
        (.error (.errObj "TypeError: Cannot read properties of undefined (reading count)"), c)
      | some sk =>
        let sk' := { sk with count := jsInc sk.count }
        (.ok ({ self with skeleton := some sk' }, sk'.toSpan), c)
    else
      let self' := { self with count := jsInc self.count }
      (.ok (self', self'), c)
  else
    match last with
    | none =>
      (.error (.errObj "TypeError: Cannot read properties of null (reading event)"), c)
    | some l =>
      match Span.construct name { traceTaskId := l.event } data c with
      | (.ok sp, c') => (.ok (self, sp), c')
      | (.error e, c') => (.error e, c')

/-- Restrict an annotation mapping to the reserved keys, as the skeleton
clearing `const \x7bLayer, Label\x7d = kv; kv = \x7bLayer, Label\x7d` does
(both keys are always present afterwards, `undefined`-valued if absent
before). -/
def kvReserved (m : KvMap) : KvMap :=
  [("Layer", kvGet m "Layer"), ("Label", kvGet m "Label")]

/-- `Span.prototype.enter` (span.js:370-397).  Bumps the matching counters (tracking
the high-water mark of concurrent top spans), records this span as
`ao.lastSpan`, reports the entry event with the optional extra data, and, on
a skeleton, immediately clears the entry annotations back to the reserved
keys so they do not accumulate across reuse. -/
def Span.enter (self : Span) (data : Option KvMap) (st : AoState) :
    Span × AoState :=
  let st :=
    if self.topSpan then
      let act := st.topSpansActive + 1
      { st with topSpansActive := act, topSpansMax := max st.topSpansMax act }
    else
      { st with otherSpansActive := st.otherSpansActive + 1 }
  let st := { st with lastSpanId := some self.sid }
  let (entry, st) := self.events.entry.sendReport data st
  let entry := if self.isSkeleton then { entry with kv := kvReserved entry.kv } else entry
  ({ self with events := { self.events with entry := entry } }, st)

/-- `Span.prototype.exit` (span.js:405-435).  Mirrors the counters, pushes one extra
edge from the exit event to the process-wide last event exactly when that
event exists, is not this span's own entry event (object identity), and the
exit event is not flagged `ignore`; reports the exit event; and, on a
skeleton, restricts the *entry* event's annotations to the reserved keys
(that is what the source does — the exit event's own annotations are left
as reported). -/
def Span.exit (self : Span) (data : Option KvMap) (st : AoState) :
    Span × AoState :=
  let st :=
    if self.topSpan then
      { st with topSpansActive := st.topSpansActive - 1,
                topSpansExited := st.topSpansExited + 1 }
    else
      { st with otherSpansActive := st.otherSpansActive - 1 }
  let exitEv :=
    match st.lastEvent with
    | some l =>
      if l.eid ≠ self.events.entry.eid ∧ self.events.exit.ignore = false then
        { self.events.exit with edges := self.events.exit.edges ++ [l.event.opId] }
      else self.events.exit
    | none => self.events.exit
  let (exitEv, st) := exitEv.sendReport data st
  let entry :=
    if self.isSkeleton then { self.events.entry with kv := kvReserved self.events.entry.kv }
    else self.events.entry
  ({ self with events := { self.events with exit := exitEv, entry := entry } }, st)

/-- `Span.prototype.setExitError` (span.js:455-466).  Normalizes the value through
`Span.toError`; a resulting error is attached to the exit event unless the
ignore-predicate is set and returns truthy for the *converted* error. -/
def Span.setExitError (self : Span) (error : JsValue) : Span :=
  match toError error with
  | none => self
  | some err =>
    match self.ignoreErrorFn with
    | none =>
      { self with events := { self.events with exit := { self.events.exit with error := some err } } }
    | some f =>
      if f err then self
      else { self with events := { self.events with exit := { self.events.exit with error := some err } } }

/-- `Span.prototype.exitCheckingError` (span.js:444-447): `setExitError` then `exit`. -/
def Span.exitCheckingError (self : Span) (error : JsValue) (data : Option KvMap)
    (st : AoState) : Span × AoState :=
  (self.setExitError error).exit data st

/-- `Span.prototype.getTransactionName` (span.js:601-619).  The truthy `customTxName`
is used when it is a string; a function-valued one is invoked with any throw
caught (yielding no name from that source); any still-falsy candidate falls
back to the default transaction name computed at creation. -/
def Span.getTransactionName (self : Span) : JsValue :=
  let txname : JsValue :=
    match self.customTxName with
    | .value v => if truthy v then (if isString v then v else .undefined) else .undefined
    | .func r => match r with | .ok v => v | .error _ => .undefined
  if truthy txname then txname else self.defaultTxName

/-- The argument object `Span.sendNonHttpSpan` hands to
`ao.reporter.sendNonHttpSpan`: the transaction name, the duration in
microseconds, and the error coerced to a boolean (`!!error`). -/
structure NonHttpArgs where
  txname : JsValue
  duration : Int
  error : Bool
deriving DecidableEq, Repr

/-- The args object built at span.js:573-578. -/
def Span.sendNonHttpSpanArgs (txname : JsValue) (duration : Int)
    (error : JsValue) : NonHttpArgs :=
  ⟨txname, duration, truthy error⟩

/-- `Span.sendNonHttpSpan` (span.js:572-595), parameterized by the Reporter
Bridge (`ao.reporter.sendNonHttpSpan`).  A truthy string response is returned
as the final name; any other response (a numeric code, or the empty string)
is logged through the debounced error logger — the Boolean in the result —
and `args.txname || 'unknown'` is returned instead. -/
def Span.sendNonHttpSpan (reporter : NonHttpArgs → JsValue) (txname : JsValue)
    (duration : Int) (error : JsValue) : JsValue × Bool :=
  let args := Span.sendNonHttpSpanArgs txname duration error
  let finalTxName := reporter args
  if isString finalTxName && truthy finalTxName then (finalTxName, false)
  else ((if truthy args.txname then args.txname else .str "unknown"), true)

/-- The observable behaviour of one invocation of a wrapped user function:
it either returns a value or throws one. -/
inductive FnOutcome where
  | ret (v : JsValue)
  | thr (e : JsValue)
deriving DecidableEq, Repr

/-- The result of `run`/`runSync`/`runAsync`: the value returned to the
caller (`Except.error` being a propagated exception), the span object as
left by the call, and the process-wide state. -/
structure RunResult where
  result : Except JsValue JsValue
  span : Span
  st : AoState

/-- `Span.prototype.runSync` (span.js:301-348), with the wrapped function modelled as a
state transformer returning its outcome, and the Reporter Bridge passed in.
The context-store scope acquired for a top span (span.js:308-314, 340-346)
touches none of the modelled state and wall-clock time is abstracted to `0`.
Control flow follows the source: enter the span, invoke `fn`; a thrown value
is captured via `setExitError` and re-raised after the `finally` block, which
on a metrics-bearing top span resolves the final transaction name into the
exit annotations, and always exits the span. -/
def Span.runSync (self : Span) (fn : AoState → FnOutcome × AoState)
    (reporter : NonHttpArgs → JsValue) (st : AoState) : RunResult :=
  let entered := self.enter none st
  let fnRes := fn entered.2
  let out := fnRes.1
  let afterSpan := match out with | .ret _ => entered.1 | .thr e => (entered.1).setExitError e
  let errorVar := match out with | .ret _ => JsValue.undefined | .thr e => e
  let kvpairs : KvMap :=
    if afterSpan.topSpan && afterSpan.doMetrics then
      let txname := afterSpan.getTransactionName
      let finaltxname := (Span.sendNonHttpSpan reporter txname 0 errorVar).1
      [("TransactionName", finaltxname)]
    else []
  let exited := afterSpan.exit (some kvpairs) fnRes.2
  { result := match out with | .ret v => .ok v | .thr e => .error e,
    span := exited.1, st := exited.2 }

/-- `Span.prototype.runAsync` (span.js:231-287), to the depth the dispatch contract
needs: the span is flagged async (setting the `Async` entry annotation), the
span is entered, and the wrapped function is invoked once — its use of the
supplied bind wrapper, and the deferred completion that wrapper performs, are
abstracted into the function's own state transformation.  A throw from the
wrapped function propagates (the source has no try around `fn.call`). -/
def Span.runAsync (self : Span) (fn : AoState → FnOutcome × AoState)
    (st : AoState) : RunResult :=
  let entryAsync :=
    { self.events.entry with kv := kvAssign self.events.entry.kv "Async" (.boolv true) }
  let self := { self with asyncF := true, events := { self.events with entry := entryAsync } }
  let (self, st) := self.enter none st
  let (out, st) := fn st
  { result := match out with | .ret v => .ok v | .thr e => .error e,
    span := self, st := st }

/-- A JavaScript function value as `Span.prototype.run` sees it: its declared
parameter count (`fn.length`) and its behaviour when invoked. -/
structure JsFun where
  arity : Nat
  body : AoState → FnOutcome × AoState

/-- `Span.prototype.run` (span.js:215-217): dispatch on the declared arity of `fn` —
exactly one parameter goes to `runAsync`, anything else to `runSync` — and
return the dispatched call's result. -/
def Span.run (self : Span) (fn : JsFun) (reporter : NonHttpArgs → JsValue)
    (st : AoState) : RunResult :=
  if fn.arity = 1 then self.runAsync fn.body st else self.runSync fn.body reporter st

/-- How many reports in `rs` belong to the event with identity `eid`. -/
def countReports (eid : Nat) (rs : List Report) : Nat :=
  (rs.filter (fun r => r.eid = eid)).length

/-- The empty process-wide state: no active event or span, zeroed counters,
nothing reported yet. -/
def stEmpty : AoState := ⟨none, none, 0, 0, 0, 0, []⟩

/-- A concrete event used to build concrete spans for witnesses. -/
def wEvent (n : Nat) (label : String) (flag : Bool) : Event :=
  ⟨n, .str "web", label, ⟨9, n, flag⟩, [], [("Layer", .str "web"), ("Label", .str label)], none, false⟩

/-- A concrete sampled span used as a base point for witnesses: name `web`,
entry event 20, exit event 21 edging to the entry. -/
def wSpan : Span :=
  { sid := 22, topSpan := false, doMetrics := false, asyncF := false,
    name := .str "web", doSample := true, ignoreErrorFn := none,
    events := ⟨[], wEvent 20 "entry" true, { wEvent 21 "exit" true with edges := [20] }⟩,
    isSkeleton := false, count := .undefined, defaultTxName := .str "custom-web",
    customTxName := .value .undefined, skeleton := none }

/-- A concrete span whose ignore-predicate accepts every error, for
exercising the error-filtering path. -/
def wSpanIgnore : Span := { wSpan with ignoreErrorFn := some (fun _ => true) }

/-- The concrete entry settings used by the C4 evaluation: an unsampled
inbound causal id. -/
def c4settings : EntrySettings := { traceTaskId := some ⟨5, 5, false⟩ }

/-- The unsampled top span of the C4 evaluation (its construction cannot
fail: the name `top` is truthy). -/
def c4top : Span :=
  match (Span.makeEntrySpan (.str "top") c4settings none 0).1 with
  | .ok sp => sp
  | .error _ => wSpan

/-- The skeleton stored on `c4top`. -/
def c4skel : Span := (c4top.skeleton.getD c4top.toSpanData).toSpan

/-- One enter report on the skeleton, with extra annotation data. -/
def c4afterEnter : Span × AoState := c4skel.enter (some [("Extra", .num 7)]) stEmpty

/-- One exit report on the skeleton, with extra annotation data `X`. -/
def c4afterExit : Span × AoState :=
  (c4afterEnter.1).exit (some [("X", .num 1)]) c4afterEnter.2

/-- A second enter/exit cycle on the same skeleton, with fresh extra data. -/
def c4afterExit2 : Span × AoState :=
  let e2 := (c4afterExit.1).enter (some [("Extra2", .num 8)]) c4afterExit.2
  (e2.1).exit (some [("Y", .num 2)]) e2.2

/-- The report record that `Span.prototype.enter` hands to the Reporter Bridge: the
entry event with `data` merged in. -/
def enterReportOf (self : Span) (data : Option KvMap) : Report :=
  ⟨(self.events.entry.set data).eid, (self.events.entry.set data).label,
   (self.events.entry.set data).kv, (self.events.entry.set data).edges,
   (self.events.entry.set data).error⟩

/-- The exit event as it stands when `Span.prototype.exit` reports it: with the extra
edge to the process-wide last event pushed exactly under the source's
condition (span.js:417-418). -/
def exitEventEdged (self : Span) (st : AoState) : Event :=
  match st.lastEvent with
  | some l =>
    if l.eid ≠ self.events.entry.eid ∧ self.events.exit.ignore = false then
      { self.events.exit with edges := self.events.exit.edges ++ [l.event.opId] }
    else self.events.exit
  | none => self.events.exit

/-- The report record that `Span.prototype.exit` hands to the Reporter Bridge: the
(possibly extra-edged) exit event with `data` merged in. -/
def exitReportOf (self : Span) (data : Option KvMap) (st : AoState) : Report :=
  ⟨((exitEventEdged self st).set data).eid, ((exitEventEdged self st).set data).label,
   ((exitEventEdged self st).set data).kv, ((exitEventEdged self st).set data).edges,
   ((exitEventEdged self st).set data).error⟩

@[simp]
theorem truthy_undef : truthy .undefined = false := rfl

@[simp]
theorem Event.eid_set (e : Event) (d : Option KvMap) : (e.set d).eid = e.eid := by
  cases d <;> rfl

@[simp]
theorem Event.label_set (e : Event) (d : Option KvMap) : (e.set d).label = e.label := by
  cases d <;> rfl

@[simp]
theorem Event.error_set (e : Event) (d : Option KvMap) : (e.set d).error = e.error := by
  cases d <;> rfl

@[simp]
theorem Event.edges_set (e : Event) (d : Option KvMap) : (e.set d).edges = e.edges := by
  cases d <;> rfl

@[simp]
theorem Event.event_set (e : Event) (d : Option KvMap) : (e.set d).event = e.event := by
  cases d <;> rfl

theorem enter_reports (self : Span) (data : Option KvMap) (st : AoState) :
    ∃ er, (self.enter data st).2.reports = st.reports ++ [er] ∧
      er.eid = self.events.entry.eid := by
  unfold Span.enter Event.sendReport
  by_cases ht : self.topSpan = true <;> by_cases hsk : self.isSkeleton = true <;>
    simp [ht, hsk]

theorem enter_span_fields (self : Span) (data : Option KvMap) (st : AoState) :
    (self.enter data st).1.events.exit = self.events.exit ∧
    (self.enter data st).1.events.entry.eid = self.events.entry.eid ∧
    (self.enter data st).1.topSpan = self.topSpan ∧
    (self.enter data st).1.doMetrics = self.doMetrics ∧
    (self.enter data st).1.isSkeleton = self.isSkeleton ∧
    (self.enter data st).1.ignoreErrorFn = self.ignoreErrorFn := by
  unfold Span.enter Event.sendReport
  by_cases ht : self.topSpan = true <;> by_cases hsk : self.isSkeleton = true <;>
    simp [ht, hsk]

theorem enter_reports_eq (self : Span) (data : Option KvMap) (st : AoState) :
    (self.enter data st).2.reports = st.reports ++ [enterReportOf self data] := by
  unfold Span.enter Event.sendReport enterReportOf
  by_cases ht : self.topSpan = true <;> by_cases hsk : self.isSkeleton = true <;>
    simp [ht, hsk]

theorem enterReportOf_eid (self : Span) (data : Option KvMap) :
    (enterReportOf self data).eid = self.events.entry.eid := by
  simp [enterReportOf]

theorem exit_reports_eq (self : Span) (data : Option KvMap) (st : AoState) :
    (self.exit data st).2.reports = st.reports ++ [exitReportOf self data st] := by
  unfold Span.exit Event.sendReport exitReportOf exitEventEdged
  by_cases ht : self.topSpan = true <;> by_cases hsk : self.isSkeleton = true <;>
    rcases hl : st.lastEvent with _ | l <;>
    simp [ht, hsk, hl]

theorem exitReportOf_eid (self : Span) (data : Option KvMap) (st : AoState) :
    (exitReportOf self data st).eid = self.events.exit.eid := by
  unfold exitReportOf exitEventEdged
  rcases hl : st.lastEvent with _ | l
  · simp [hl]
  · by_cases hc : (l.eid ≠ self.events.entry.eid ∧ self.events.exit.ignore = false) <;>
      simp [hl, hc]

theorem enter_fst_exit (self : Span) (data : Option KvMap) (st : AoState) :
    (self.enter data st).1.events.exit = self.events.exit := by
  unfold Span.enter Event.sendReport
  by_cases ht : self.topSpan = true <;> by_cases hsk : self.isSkeleton = true <;>
    simp [ht, hsk]

theorem enter_fst_entry_eid (self : Span) (data : Option KvMap) (st : AoState) :
    (self.enter data st).1.events.entry.eid = self.events.entry.eid := by
  unfold Span.enter Event.sendReport
  by_cases ht : self.topSpan = true <;> by_cases hsk : self.isSkeleton = true <;>
    simp [ht, hsk, kvReserved]

theorem enter_fst_ignoreErrorFn (self : Span) (data : Option KvMap) (st : AoState) :
    (self.enter data st).1.ignoreErrorFn = self.ignoreErrorFn := by
  unfold Span.enter Event.sendReport
  by_cases ht : self.topSpan = true <;> by_cases hsk : self.isSkeleton = true <;>
    simp [ht, hsk]

theorem setExitError_exit_eid (self : Span) (e : JsValue) :
    (self.setExitError e).events.exit.eid = self.events.exit.eid := by
  unfold Span.setExitError
  rcases toError e with _ | err
  · rfl
  · rcases self.ignoreErrorFn with _ | f
    · rfl
    · by_cases hf : f err = true <;> simp [hf]

theorem countReports_append (e : Nat) (a b : List Report) :
    countReports e (a ++ b) = countReports e a + countReports e b := by
  simp [countReports, List.filter_append]

theorem countReports_single (e : Nat) (r : Report) :
    countReports e [r] = if r.eid = e then 1 else 0 := by
  by_cases h : r.eid = e <;> simp [countReports, List.filter_cons, h]

theorem countReports_foreign (e : Nat) (l : List Report)
    (h : ∀ r ∈ l, r.eid ≠ e) : countReports e l = 0 := by
  simp only [countReports, List.length_eq_zero, List.filter_eq_nil_iff]
  intro r hr
  simpa using h r hr

theorem setExitError_exit_error (self : Span) (e : JsValue) :
    (self.setExitError e).events.exit.error
      = (match toError e with
         | none => self.events.exit.error
         | some err =>
           match self.ignoreErrorFn with
           | none => some err
           | some f => if f err then self.events.exit.error else some err) := by
  unfold Span.setExitError
  rcases toError e with _ | err
  · rfl
  · rcases self.ignoreErrorFn with _ | f
    · rfl
    · by_cases hf : f err = true <;> simp [hf]

theorem setExitError_span_fields (self : Span) (e : JsValue) :
    (self.setExitError e).events.exit.eid = self.events.exit.eid ∧
    (self.setExitError e).events.entry = self.events.entry ∧
    (self.setExitError e).topSpan = self.topSpan ∧
    (self.setExitError e).doMetrics = self.doMetrics ∧
    (self.setExitError e).isSkeleton = self.isSkeleton := by
  unfold Span.setExitError
  rcases toError e with _ | err
  · simp
  · rcases self.ignoreErrorFn with _ | f
    · simp
    · by_cases hf : f err = true <;> simp [hf]

theorem exit_reports (self : Span) (data : Option KvMap) (st : AoState) :
    ∃ xr, (self.exit data st).2.reports = st.reports ++ [xr] ∧
      xr.eid = self.events.exit.eid ∧ xr.error = self.events.exit.error := by
  unfold Span.exit Event.sendReport
  by_cases ht : self.topSpan = true <;> by_cases hsk : self.isSkeleton = true <;>
    rcases hl : st.lastEvent with _ | l <;>
    simp [ht, hsk, hl] <;>
    by_cases hc : (l.eid ≠ self.events.entry.eid ∧ self.events.exit.ignore = false) <;>
    simp [hc]

theorem exit_span_exit_error (self : Span) (data : Option KvMap) (st : AoState) :
    (self.exit data st).1.events.exit.error = self.events.exit.error := by
  unfold Span.exit Event.sendReport
  by_cases ht : self.topSpan = true <;> by_cases hsk : self.isSkeleton = true <;>
    rcases hl : st.lastEvent with _ | l <;>
    simp [ht, hsk, hl] <;>
    by_cases hc : (l.eid ≠ self.events.entry.eid ∧ self.events.exit.ignore = false) <;>
    simp [hc]

theorem construct_ok_exit_edges (name : JsValue) (settings : Settings)
    (d : Option KvMap) (c c2 : Nat) (sp : Span)
    (h : Span.construct name settings d c = (.ok sp, c2)) :
    sp.events.exit.edges = [sp.events.entry.event.opId] := by
  unfold Span.construct at h
  by_cases hn : truthy name = false
  · simp [hn] at h
  · simp [hn, Event.make] at h
    obtain ⟨h1, -⟩ := h
    subst h1
    simp [Event.make]

/-- C5: `Span.prototype.exit` adds exactly one extra causal edge to the process-wide
last event if and only if that event exists, is not this span's own entry
event, and the exit event is not flagged to skip edging; whatever the case,
no error is raised and the exit event is reported exactly once, with the
edges it has at that moment — for a constructed span, when no extra edge is
added, that is the single default edge to the entry event. -/
theorem exit_extra_edge_iff (self : Span) (data : Option KvMap) (st : AoState) :
    ((self.exit data st).1.events.exit.edges
        = self.events.exit.edges ++
          (match st.lastEvent with
           | some l =>
             if l.eid ≠ self.events.entry.eid ∧ self.events.exit.ignore = false
             then [l.event.opId] else []
           | none => [])) ∧
    (∃ xr, (self.exit data st).2.reports = st.reports ++ [xr] ∧
       xr.eid = self.events.exit.eid ∧
       xr.edges = (self.exit data st).1.events.exit.edges) ∧
    (∀ nm stg d2 c c2 sp, Span.construct nm stg d2 c = (.ok sp, c2) →
       sp.events.exit.edges = [sp.events.entry.event.opId]) := by
  refine ⟨?_, ?_, fun nm stg d2 c c2 sp h => construct_ok_exit_edges nm stg d2 c c2 sp h⟩
  · unfold Span.exit Event.sendReport
    by_cases ht : self.topSpan = true <;> by_cases hsk : self.isSkeleton = true <;>
      rcases hl : st.lastEvent with _ | l <;>
      simp [ht, hsk, hl] <;>
      by_cases hc : (l.eid ≠ self.events.entry.eid ∧ self.events.exit.ignore = false) <;>
      simp [hc]
  · unfold Span.exit Event.sendReport
    by_cases ht : self.topSpan = true <;> by_cases hsk : self.isSkeleton = true <;>
      rcases hl : st.lastEvent with _ | l <;>
      simp [ht, hsk, hl] <;>
      by_cases hc : (l.eid ≠ self.events.entry.eid ∧ self.events.exit.ignore = false) <;>
      simp [hc]

/-- Witness for C5: a concrete exit with no active event reports once with
the unchanged edges, and a concrete constructed span's exit event carries
exactly the default edge to its entry event. -/
theorem exit_extra_edge_iff_witness :
    ((wSpan.exit none stEmpty).1.events.exit.edges = wSpan.events.exit.edges ++ []) ∧
    (∃ xr, (wSpan.exit none stEmpty).2.reports = stEmpty.reports ++ [xr] ∧
       xr.eid = wSpan.events.exit.eid ∧
       xr.edges = (wSpan.exit none stEmpty).1.events.exit.edges) ∧
    (∃ sp c2, Span.construct (.str "kid") ⟨⟨3, 3, true⟩, none⟩ none 40 = (.ok sp, c2) ∧
       sp.events.exit.edges = [sp.events.entry.event.opId]) := by
  have h := exit_extra_edge_iff wSpan none stEmpty
  exact ⟨h.1, h.2.1, ⟨_, _, rfl, h.2.2 (.str "kid") ⟨⟨3, 3, true⟩, none⟩ none 40 _ _ rfl⟩⟩

/-- C6: `Span.prototype.run` dispatches to `runAsync` exactly when the supplied
function declares exactly one parameter, and to `runSync` for every other
arity, returning the dispatched call's result (span.js:215-217). -/
theorem run_dispatches_on_arity (self : Span) (fn : JsFun)
    (reporter : NonHttpArgs → JsValue) (st : AoState) :
    self.run fn reporter st
      = if fn.arity = 1 then self.runAsync fn.body st
        else self.runSync fn.body reporter st := rfl

/-- C8: constructing a `Span` with a falsy name raises the invalid-argument
`TypeError` and allocates nothing — in particular no entry/exit event pair is
built (the id counter comes back unchanged). -/
theorem construct_falsy_name_fails (name : JsValue) (settings : Settings)
    (data : Option KvMap) (c : Nat) (h : truthy name = false) :
    Span.construct name settings data c
      = (.error (.errObj ("TypeError: invalid span name " ++ jsToString name)), c) := by
  unfold Span.construct
  simp [h]

/-- Witness for C8 at the concrete falsy name `undefined`. -/
theorem construct_falsy_name_fails_witness :
    truthy .undefined = false ∧
    Span.construct .undefined ⟨⟨1, 1, true⟩, none⟩ none 5
      = (.error (.errObj "TypeError: invalid span name undefined"), 5) :=
  ⟨rfl, construct_falsy_name_fails .undefined ⟨⟨1, 1, true⟩, none⟩ none 5 rfl⟩

/-- C10: `descend` on a sampled span with no currently active event does not
construct a child span (the id counter comes back unchanged) but raises a
`TypeError`, because the child's causal predecessor is read unconditionally
from the null last event (span.js:170). -/
theorem descend_sampled_no_last_event_throws (self : Span) (name : JsValue)
    (data : Option KvMap) (c : Nat) (h : self.doSample = true) :
    self.descend none name data c
      = (.error (.errObj "TypeError: Cannot read properties of null (reading event)"), c) := by
  unfold Span.descend
  simp [h]

/-- Witness for C10 on a concrete sampled span. -/
theorem descend_sampled_no_last_event_throws_witness :
    wSpan.doSample = true ∧
    wSpan.descend none (.str "child") none 30
      = (.error (.errObj "TypeError: Cannot read properties of null (reading event)"), 30) :=
  ⟨rfl, descend_sampled_no_last_event_throws wSpan (.str "child") none 30 rfl⟩

/-- C7, counterexample: a custom transaction name that is set to the (falsy)
string `""`, or a custom function that returns `""`, is not returned;
`getTransactionName` yields the default name instead, so the claimed strict
precedence (custom string first, custom function result second) fails as
stated. -/
theorem getTransactionName_falsy_custom_cex :
    Span.getTransactionName { wSpan with customTxName := .value (.str "") } = .str "custom-web" ∧
    Span.getTransactionName { wSpan with customTxName := .func (.ok (.str "")) } = .str "custom-web" ∧
    (JsValue.str "custom-web") ≠ .str "" := ⟨rfl, rfl, by decide⟩

/-- C7, amended: `getTransactionName` returns the custom transaction name
when it is set to a truthy string; else, when it is set to a function, the
result of invoking it when that result is truthy, with any invocation error
caught; in every other case (unset, falsy or non-string value, throwing
function, or function returning a falsy value) it falls back to the default
name computed at creation. -/
theorem getTransactionName_precedence (self : Span) :
    self.getTransactionName
      = (match self.customTxName with
         | .value v => if truthy v && isString v then v else self.defaultTxName
         | .func (.ok v) => if truthy v then v else self.defaultTxName
         | .func (.error _) => self.defaultTxName) := by
  unfold Span.getTransactionName
  rcases hc : self.customTxName with v | (v | err)
  · cases hv : truthy v
    · simp [hv]
    · cases hs : isString v
      · simp [hv, hs]
      · simp [hv, hs]
  · cases hv : truthy v
    · simp [hv]
    · simp [hv]
  · simp

/-- C9, counterexample: when the Reporter Bridge answers with a non-string
code and the original `txname` is the (falsy) empty string, `sendNonHttpSpan`
returns `'unknown'`, not the original `txname` argument as claimed. -/
theorem sendNonHttpSpan_falsy_txname_cex :
    Span.sendNonHttpSpan (fun _ => .num 0) (.str "") 0 .undefined = (.str "unknown", true) ∧
    (JsValue.str "unknown") ≠ .str "" := ⟨rfl, by decide⟩

/-- C9, amended: `sendNonHttpSpan` hands the name, duration and coerced
boolean error flag to the Reporter Bridge; a truthy string response is
returned as the final name; for any other response it logs through the
debounced logger and returns the original `txname` when that is truthy, else
the string `'unknown'`. -/
theorem sendNonHttpSpan_result (reporter : NonHttpArgs → JsValue)
    (txname : JsValue) (duration : Int) (error : JsValue) :
    Span.sendNonHttpSpanArgs txname duration error = ⟨txname, duration, truthy error⟩ ∧
    Span.sendNonHttpSpan reporter txname duration error
      = (let resp := reporter ⟨txname, duration, truthy error⟩
         if isString resp && truthy resp then (resp, false)
         else ((if truthy txname then txname else .str "unknown"), true)) :=
  ⟨rfl, rfl⟩

@[simp]
theorem SpanData.toSpan_doSample (d : SpanData) : d.toSpan.doSample = d.doSample := rfl

@[simp]
theorem SpanData.toSpan_topSpan (d : SpanData) : d.toSpan.topSpan = d.topSpan := rfl

@[simp]
theorem SpanData.toSpan_sid (d : SpanData) : d.toSpan.sid = d.sid := rfl

@[simp]
theorem SpanData.toSpan_count (d : SpanData) : d.toSpan.count = d.count := rfl

@[simp]
theorem SpanData.toSpan_isSkeleton (d : SpanData) : d.toSpan.isSkeleton = d.isSkeleton := rfl

theorem descend_unsampled_top (s : Span) (sk : SpanData) (last : Option Event)
    (name : JsValue) (d : Option KvMap) (c : Nat)
    (h1 : s.doSample = false) (h2 : s.topSpan = true) (h3 : s.skeleton = some sk) :
    s.descend last name d c
      = (.ok ({ s with skeleton := some { sk with count := jsInc sk.count } },
              ({ sk with count := jsInc sk.count } : SpanData).toSpan), c) := by
  unfold Span.descend
  simp [h1, h2, h3]

theorem descend_skeleton_self (s : Span) (last : Option Event) (name : JsValue)
    (d : Option KvMap) (c : Nat) (h1 : s.doSample = false) (h2 : s.topSpan = false) :
    s.descend last name d c
      = (.ok ({ s with count := jsInc s.count }, { s with count := jsInc s.count }), c) := by
  unfold Span.descend
  simp [h1, h2]

theorem makeEntrySpan_unsampled (name : JsValue) (t : AddonEvent) (es : EntrySettings)
    (kvp : Option KvMap) (c : Nat)
    (hname : truthy name = true) (hes : es.traceTaskId = some t)
    (hflag : t.sampleFlag = false) :
    ∃ span sk, (Span.makeEntrySpan name es kvp c).1 = .ok span ∧
      span.skeleton = some sk ∧ sk.isSkeleton = true ∧
      sk.name = .str "__skeleton__" ∧ sk.count = .undefined ∧
      sk.doSample = false ∧ sk.topSpan = false ∧
      span.doSample = false ∧ span.topSpan = true := by
  have hskname : truthy (.str "__skeleton__") = true := rfl
  unfold Span.makeEntrySpan Span.construct
  rw [hes]
  simp [hname, hflag, hskname, Event.make]

/-- C4, evaluation at the failing input: after an enter/exit cycle on the
skeleton with extra data on each report, the skeleton's *entry* event is
clipped back to the reserved keys (`Layer`, `Label`) — but the *exit* event's
annotation mapping keeps the extra key `X`, and after a second cycle also
`Y`: `Span.prototype.exit` clears the entry event's mapping instead of the exit
event's, so the exit mapping exceeds the reserved keys and grows across
reuse, contradicting the claimed invariant. -/
theorem skeleton_exit_kv_accumulates :
    c4skel.isSkeleton = true ∧
    kvKeys ((c4afterEnter.1).events.entry.kv) = ["Layer", "Label"] ∧
    kvKeys ((c4afterExit.1).events.entry.kv) = ["Layer", "Label"] ∧
    "X" ∈ kvKeys ((c4afterExit.1).events.exit.kv) ∧
    "X" ∈ kvKeys ((c4afterExit2.1).events.exit.kv) ∧
    "Y" ∈ kvKeys ((c4afterExit2.1).events.exit.kv) ∧
    ¬(∀ k ∈ kvKeys ((c4afterExit.1).events.exit.kv), k = "Layer" ∨ k = "Label") := by
  decide

/-- C2, counterexample: constructing an entry span named `""` does not
succeed — the constructor's falsy-name check fires before anything is built,
so `makeEntrySpan` raises the invalid-span-name `TypeError`, allocates no
object (the id counter is unchanged) and creates no skeleton. -/
theorem makeEntrySpan_empty_name_cex :
    Span.makeEntrySpan (.str "") c4settings none 0
      = (.error (.errObj "TypeError: invalid span name "), 0) := rfl

/-- C2, amended: constructing an entry span with name `""` fails with a
`TypeError` (the name is falsy); for every truthy name with an unsampled
causal id, `makeEntrySpan` succeeds and creates a single skeleton span, and
three nested `descend()` calls all return the same single object — the
skeleton, by object identity — but its reuse counter, never initialized by
the source and bumped with `undefined + 1`, equals `NaN` after the three
calls, not 3. -/
theorem makeEntrySpan_unsampled_descend_chain (name : JsValue) (t : AddonEvent)
    (es : EntrySettings) (kvp : Option KvMap) (c : Nat)
    (hname : truthy name = true) (hes : es.traceTaskId = some t)
    (hflag : t.sampleFlag = false)
    (l1 l2 l3 : Option Event) (n1 n2 n3 : JsValue) (dt1 dt2 dt3 : Option KvMap)
    (c1 c2 c3 : Nat) :
    ∃ span sk, (Span.makeEntrySpan name es kvp c).1 = .ok span ∧
      span.skeleton = some sk ∧ sk.isSkeleton = true ∧ sk.name = .str "__skeleton__" ∧
      ∃ p1 r1 p2 r2 p3 r3,
        span.descend l1 n1 dt1 c1 = (.ok (p1, r1), c1) ∧
        r1.descend l2 n2 dt2 c2 = (.ok (p2, r2), c2) ∧ p2 = r2 ∧
        r2.descend l3 n3 dt3 c3 = (.ok (p3, r3), c3) ∧ p3 = r3 ∧
        r1.sid = sk.sid ∧ r2.sid = sk.sid ∧ r3.sid = sk.sid ∧
        r1.isSkeleton = true ∧
        r1.count = .nan ∧ r2.count = .nan ∧ r3.count = .nan ∧ r3.count ≠ .num 3 := by
  obtain ⟨span, sk, hok, hskel, hisSkel, hskn, hcount, hds, hts, hds2, hts2⟩ :=
    makeEntrySpan_unsampled name t es kvp c hname hes hflag
  refine ⟨span, sk, hok, hskel, hisSkel, hskn, ?_⟩
  have h1 := descend_unsampled_top span sk l1 n1 dt1 c1 hds2 hts2 hskel
  have h2 := descend_skeleton_self (({ sk with count := jsInc sk.count } : SpanData).toSpan)
    l2 n2 dt2 c2 (by simp [hds]) (by simp [hts])
  have h3 := descend_skeleton_self
    ({ ({ sk with count := jsInc sk.count } : SpanData).toSpan with
        count := jsInc (({ sk with count := jsInc sk.count } : SpanData).toSpan).count })
    l3 n3 dt3 c3 (by simp [hds]) (by simp [hts])
  refine ⟨_, _, _, _, _, _, h1, h2, rfl, h3, rfl, by simp, by simp, by simp,
    by simp [hisSkel], ?_, ?_, ?_, ?_⟩
  · simp [hcount, jsInc, jsToNumber?]
  · simp [hcount, jsInc, jsToNumber?]
  · simp [hcount, jsInc, jsToNumber?]
  · simp [hcount, jsInc, jsToNumber?]

/-- Witness for the amended C2 at a concrete unsampled entry span. -/
theorem makeEntrySpan_unsampled_descend_chain_witness :
    truthy (.str "web") = true ∧
    (∃ span sk, (Span.makeEntrySpan (.str "web") c4settings none 0).1 = .ok span ∧
      span.skeleton = some sk ∧ sk.isSkeleton = true ∧ sk.name = .str "__skeleton__" ∧
      ∃ p1 r1 p2 r2 p3 r3,
        span.descend none (.str "a") none 10 = (.ok (p1, r1), 10) ∧
        r1.descend none (.str "b") none 11 = (.ok (p2, r2), 11) ∧ p2 = r2 ∧
        r2.descend none (.str "c") none 12 = (.ok (p3, r3), 12) ∧ p3 = r3 ∧
        r1.sid = sk.sid ∧ r2.sid = sk.sid ∧ r3.sid = sk.sid ∧
        r1.isSkeleton = true ∧
        r1.count = .nan ∧ r2.count = .nan ∧ r3.count = .nan ∧ r3.count ≠ .num 3) :=
  ⟨rfl, makeEntrySpan_unsampled_descend_chain (.str "web") ⟨5, 5, false⟩ c4settings none 0
    rfl rfl rfl none none none (.str "a") (.str "b") (.str "c") none none none 10 11 12⟩

/-- C1: for every span on which `runSync` is invoked, exactly one entry
report and exactly one exit report of that span occur during the invocation,
regardless of whether the wrapped function returns or throws: the entry
report precedes everything the wrapped function itself reports, and the exit
report follows it on every exit path.  The wrapped function is an arbitrary
state transformer, assumed only to append reports and only of other events;
the span's two events are assumed distinct objects, as construction
guarantees. -/
theorem runSync_pairs_entry_exit (self : Span)
    (fn : AoState → FnOutcome × AoState) (reporter : NonHttpArgs → JsValue)
    (st : AoState)
    (hids : self.events.entry.eid ≠ self.events.exit.eid)
    (hfn : ∀ s : AoState, ∃ new, (fn s).2.reports = s.reports ++ new ∧
        ∀ r ∈ new, r.eid ≠ self.events.entry.eid ∧ r.eid ≠ self.events.exit.eid) :
    (∃ er mid xr,
      (self.runSync fn reporter st).st.reports = ((st.reports ++ [er]) ++ mid) ++ [xr] ∧
      (self.runSync fn reporter st).st.reports = st.reports ++ er :: (mid ++ [xr]) ∧
      er.eid = self.events.entry.eid ∧ xr.eid = self.events.exit.eid ∧
      (∀ r ∈ mid, r.eid ≠ self.events.entry.eid ∧ r.eid ≠ self.events.exit.eid)) ∧
    countReports self.events.entry.eid (self.runSync fn reporter st).st.reports
      = countReports self.events.entry.eid st.reports + 1 ∧
    countReports self.events.exit.eid (self.runSync fn reporter st).st.reports
      = countReports self.events.exit.eid st.reports + 1 := by
  obtain ⟨mid, hmid, hfor⟩ := hfn (self.enter none st).2
  have hee := enter_fst_exit self none st
  have hmid0 : countReports self.events.entry.eid mid = 0 :=
    countReports_foreign _ mid (fun r hr => (hfor r hr).1)
  have hmid1 : countReports self.events.exit.eid mid = 0 :=
    countReports_foreign _ mid (fun r hr => (hfor r hr).2)
  simp only [Span.runSync]
  rcases hout : (fn (self.enter none st).2).1 with v | e <;>
    rw [exit_reports_eq, hmid, enter_reports_eq]
  · refine ⟨⟨_, mid, _, rfl, by simp, enterReportOf_eid self none, ?_, hfor⟩, ?_, ?_⟩
    · rw [exitReportOf_eid, hee]
    · simp only [countReports_append, countReports_single, hmid0]
      rw [enterReportOf_eid, exitReportOf_eid, hee]
      simp [Ne.symm hids]
    · simp only [countReports_append, countReports_single, hmid1]
      rw [enterReportOf_eid, exitReportOf_eid, hee]
      simp [hids]
  · refine ⟨⟨_, mid, _, rfl, by simp, enterReportOf_eid self none, ?_, hfor⟩, ?_, ?_⟩
    · rw [exitReportOf_eid, setExitError_exit_eid, hee]
    · simp only [countReports_append, countReports_single, hmid0]
      rw [enterReportOf_eid, exitReportOf_eid, setExitError_exit_eid, hee]
      simp [Ne.symm hids]
    · simp only [countReports_append, countReports_single, hmid1]
      rw [enterReportOf_eid, exitReportOf_eid, setExitError_exit_eid, hee]
      simp [hids]

/-- Witness for C1: a concrete span run with a throwing wrapped function
still reports its entry and exit exactly once each. -/
theorem runSync_pairs_entry_exit_witness :
    (wSpan.events.entry.eid ≠ wSpan.events.exit.eid) ∧
    ((∃ er mid xr,
      (wSpan.runSync (fun s => (.thr (.errObj "boom"), s)) (fun _ => .str "t") stEmpty).st.reports
        = ((stEmpty.reports ++ [er]) ++ mid) ++ [xr] ∧
      (wSpan.runSync (fun s => (.thr (.errObj "boom"), s)) (fun _ => .str "t") stEmpty).st.reports
        = stEmpty.reports ++ er :: (mid ++ [xr]) ∧
      er.eid = wSpan.events.entry.eid ∧ xr.eid = wSpan.events.exit.eid ∧
      (∀ r ∈ mid, r.eid ≠ wSpan.events.entry.eid ∧ r.eid ≠ wSpan.events.exit.eid)) ∧
    countReports wSpan.events.entry.eid
        (wSpan.runSync (fun s => (.thr (.errObj "boom"), s)) (fun _ => .str "t") stEmpty).st.reports
      = countReports wSpan.events.entry.eid stEmpty.reports + 1 ∧
    countReports wSpan.events.exit.eid
        (wSpan.runSync (fun s => (.thr (.errObj "boom"), s)) (fun _ => .str "t") stEmpty).st.reports
      = countReports wSpan.events.exit.eid stEmpty.reports + 1) :=
  ⟨by decide,
   runSync_pairs_entry_exit wSpan (fun s => (.thr (.errObj "boom"), s)) (fun _ => .str "t")
     stEmpty (by decide) (fun s => ⟨[], by simp, by simp⟩)⟩

/-- C3: when the wrapped function throws, `runSync` re-raises the thrown
value unchanged to the caller; the exit event's error afterwards is exactly
what `setExitError` attaches — the `Span.toError`-normalized error, unless
the span's ignore-predicate is set and returns true for it, in which case
the exit event carries no error (assuming it carried none before, as at
construction). -/
theorem runSync_rethrows_and_attaches (self : Span) (g : AoState → AoState)
    (e : JsValue) (reporter : NonHttpArgs → JsValue) (st : AoState)
    (hx : self.events.exit.error = none) :
    (self.runSync (fun s => (.thr e, g s)) reporter st).result = .error e ∧
    (self.runSync (fun s => (.thr e, g s)) reporter st).span.events.exit.error
      = (match toError e with
         | none => none
         | some err =>
           match self.ignoreErrorFn with
           | none => some err
           | some f => if f err then none else some err) := by
  constructor
  · simp [Span.runSync]
  · simp only [Span.runSync]
    rw [exit_span_exit_error, setExitError_exit_error, enter_fst_exit,
      enter_fst_ignoreErrorFn, hx]

/-- Witness for C3: a concrete span whose ignore-predicate accepts every
error still re-raises a thrown error, and its exit event carries no error. -/
theorem runSync_rethrows_and_attaches_witness :
    wSpanIgnore.events.exit.error = none ∧
    (wSpanIgnore.runSync (fun s => (.thr (.errObj "boom"), id s)) (fun _ => .str "t") stEmpty).result
      = .error (.errObj "boom") ∧
    (wSpanIgnore.runSync (fun s => (.thr (.errObj "boom"), id s)) (fun _ => .str "t") stEmpty).span.events.exit.error
      = none := by
  have h := runSync_rethrows_and_attaches wSpanIgnore id (.errObj "boom")
    (fun _ => .str "t") stEmpty rfl
  exact ⟨rfl, h.1, by rw [h.2]; rfl⟩

end AO
